import Mathlib

/-!
Verification of the CineCatálogo client-side script (src/CSS2/script.js).

The script is shallowly embedded: each DOM element kind the script touches
becomes a structure, each event handler and loop body becomes a pure
function on that structure, and event dispatch is modelled by applying the
handler exactly when the corresponding listener has been attached.
-/

/-- The CSS class "img-loading" added while a deferred image loads. -/
def imgLoadingClass : String := "img-loading"

/-- The CSS class "img-missing" marking a failed image. -/
def imgMissingClass : String := "img-missing"

/-- The fixed marker prepended to the alt text of a failed image. -/
def notAvailableMarker : String := "Imagem não disponível: "

/-- The scheme-and-type head of the generated placeholder data URI. -/
def dataURIHead : String := "data:image/svg+xml;charset=utf-8,"

/-- An image element, with the fields of HTMLImageElement the script reads
or writes, plus flags recording which listeners the script has attached. -/
structure Img where
  complete : Bool
  naturalWidth : Nat
  naturalHeight : Nat
  width : Nat
  height : Nat
  alt : String
  src : String
  classes : List String
  lazyLoading : Bool
  onLoadAttached : Bool
  onErrorAttached : Bool
deriving DecidableEq, Repr

/-- DOMTokenList.contains. -/
def classListContains (c : String) : List String → Bool
  | [] => false
  | a :: t => if a == c then true else classListContains c t

/-- DOMTokenList.add: appends the token unless already present. -/
def classListAdd (c : String) (l : List String) : List String :=
  if classListContains c l then l else l ++ [c]

/-- DOMTokenList.remove: drops every occurrence of the token. -/
def classListRemove (c : String) (l : List String) : List String :=
  l.filter (fun x => x != c)

/-- classList.contains on an image element. -/
def hasClass (c : String) (img : Img) : Bool :=
  classListContains c img.classes

/-- JavaScript `x || d` on numbers, for the width/height fallback:
0 is falsy, every other number is truthy. -/
def jsNumOr (n d : Nat) : Nat := if n == 0 then d else n

/-- The SVG template literal of the error handler, with the two dimension
holes and the alt-text hole filled in; text and whitespace are exactly
those of the source template. -/
def svgMarkup (w h : Nat) (alt : String) : String :=
  "<svg xmlns=\"http://www.w3.org/2000/svg\" width=\"" ++ toString w ++
  "\" height=\"" ++ toString h ++ "\" viewBox=\"0 0 400 300\">\n          " ++
  "<rect width=\"100%\" height=\"100%\" fill=\"#222\"/>\n          " ++
  "<text x=\"50%\" y=\"50%\" fill=\"#ff6b6b\" font-family=\"Arial\" font-size=\"16\" text-anchor=\"middle\" dy=\".3em\">Imagem não encontrada</text>\n          " ++
  "<text x=\"50%\" y=\"60%\" fill=\"#ffb3b3\" font-family=\"Arial\" font-size=\"12\" text-anchor=\"middle\">" ++ alt ++
  "</text>\n        </svg>"

/-- Is a character left unescaped by JavaScript encodeURIComponent? -/
def isURIUnreserved (c : Char) : Bool :=
  c.isAlphanum || c == '-' || c == '_' || c == '.' || c == '!' ||
  c == '~' || c == '*' || c == Char.ofNat 39 || c == '(' || c == ')'

/-- Upper-case hexadecimal digit of a value below 16. -/
def hexDigitChar (n : Nat) : Char :=
  if n < 10 then Char.ofNat (48 + n) else Char.ofNat (55 + n)

/-- Percent-encode one byte, upper-case hex as encodeURIComponent emits. -/
def percentEncodeByte (b : UInt8) : String :=
  "%" ++ String.singleton (hexDigitChar (b.toNat / 16)) ++
  String.singleton (hexDigitChar (b.toNat % 16))

/-- JavaScript encodeURIComponent: unreserved characters pass through,
every other character is UTF-8 encoded and percent-escaped per byte. -/
def encodeURIComponent (s : String) : String :=
  s.data.foldl
    (fun acc c =>
      if isURIUnreserved c then acc.push c
      else acc ++ String.join (((String.singleton c).toUTF8.toList).map percentEncodeByte))
    ""

/-- The data URI the error handler assigns to src, for the given layout
width/height and the (already rewritten) alt text. -/
def placeholderSrc (w h : Nat) (alt : String) : String :=
  dataURIHead ++ encodeURIComponent (svgMarkup (jsNumOr w 400) (jsNumOr h 300) alt)

/-- The load listener attached by initializeImageHandling:
removes the loading class. -/
def imgLoadHandler (img : Img) : Img :=
  { img with classes := classListRemove imgLoadingClass img.classes }

/-- The error listener attached by initializeImageHandling: removes the
loading class, adds the missing class, prefixes the alt text, and replaces
src with the generated placeholder data URI. -/
def imgErrorHandler (img : Img) : Img :=
  let classes1 := classListAdd imgMissingClass (classListRemove imgLoadingClass img.classes)
  let newAlt := notAvailableMarker ++ img.alt
  { img with
      classes := classes1
      alt := newAlt
      src := dataURIHead ++
        encodeURIComponent (svgMarkup (jsNumOr img.width 400) (jsNumOr img.height 300) newAlt) }

/-- dispatchEvent(new Event("load")) on an image: the handler runs only
when the listener was attached. -/
def dispatchLoadEvent (img : Img) : Img :=
  if img.onLoadAttached then imgLoadHandler img else img

/-- dispatchEvent(new Event("error")) on an image: the handler runs only
when the listener was attached. -/
def dispatchErrorEvent (img : Img) : Img :=
  if img.onErrorAttached then imgErrorHandler img else img

/-- The per-image body of initializeImageHandling: only images matching
the selector for lazy loading are touched; an incomplete one gains the
loading class, and the load and error listeners are attached. -/
def initImage (img : Img) : Img :=
  if img.lazyLoading then
    let img1 :=
      if !img.complete then { img with classes := classListAdd imgLoadingClass img.classes }
      else img
    { img1 with onLoadAttached := true, onErrorAttached := true }
  else img

/-- initializeImageHandling over the page, minus its trailing call to the
broken-image scan: it prepares every image matching the lazy selector. -/
def initializeImageHandling (imgs : List Img) : List Img :=
  imgs.map initImage

/-- The loop body of checkForBrokenImages for one image: skip images
already marked missing; a complete image with a zero natural dimension
receives a synthetic error event; an incomplete image is left for the
delayed re-check. -/
def checkForBrokenImagesStep (img : Img) : Img :=
  if classListContains imgMissingClass img.classes then img
  else if img.complete && (img.naturalWidth == 0 || img.naturalHeight == 0) then
    dispatchErrorEvent img
  else img

/-- checkForBrokenImages over all images of the document. -/
def checkForBrokenImages (imgs : List Img) : List Img :=
  imgs.map checkForBrokenImagesStep

/-- The setTimeout callback scheduled by checkForBrokenImages for an image
that was incomplete at scan time, run on the image's state one second
later: a zero natural dimension triggers a synthetic error event. -/
def delayedBrokenCheck (img : Img) : Img :=
  if img.naturalWidth == 0 || img.naturalHeight == 0 then dispatchErrorEvent img
  else img

/-- The four per-image mutating operations the script can run, plus the
per-image part of initialization; used to state the one-way property of
the missing state under any sequence of script actions. -/
inductive ImgOp
  | loadEvent
  | errorEvent
  | initHandling
  | brokenScan
  | delayedScan
deriving DecidableEq, Repr

/-- Apply one script operation to an image. -/
def applyImgOp : ImgOp → Img → Img
  | ImgOp.loadEvent, img => dispatchLoadEvent img
  | ImgOp.errorEvent, img => dispatchErrorEvent img
  | ImgOp.initHandling, img => initImage img
  | ImgOp.brokenScan, img => checkForBrokenImagesStep img
  | ImgOp.delayedScan, img => delayedBrokenCheck img

/-- Run a sequence of script operations on an image. -/
def runImgOps (ops : List ImgOp) (img : Img) : Img :=
  ops.foldl (fun i op => applyImgOp op i) img

/-- A scroll-target element: the only field the click handler reads is
offsetTop; the handler also sets tabindex and focuses it. -/
structure TargetEl where
  offsetTop : Int
deriving DecidableEq, Repr

/-- The document as the smooth-scroll click handler sees it: the id-indexed
elements (getElementById) and, when a ".menu" element exists, its
offsetHeight. -/
structure ScrollDoc where
  elems : List (String × TargetEl)
  menuHeight : Option Int
deriving DecidableEq, Repr

/-- document.getElementById. -/
def getElementById (d : ScrollDoc) (i : String) : Option TargetEl :=
  d.elems.lookup i

/-- The observable outcome of one run of the click handler: whether default
navigation was prevented, where the window scrolled (none if it did not),
which element received focus and a tabindex attribute (none if none did),
and whether the handler threw. -/
structure ClickEffect where
  defaultPrevented : Bool
  scrolledTo : Option Int
  focusedId : Option String
  tabindexSetOn : Option String
  threw : Bool
deriving DecidableEq, Repr

/-- The effect of a click the handler ignores. -/
def noClickEffect : ClickEffect :=
  { defaultPrevented := false, scrolledTo := none, focusedId := none
    tabindexSetOn := none, threw := false }

/-- The string "#". -/
def bareHash : String := "#"

/-- JavaScript String.prototype.startsWith, as the prefix test on the
character sequences of the two strings. -/
def jsStartsWith (s p : String) : Bool :=
  p.data.isPrefixOf s.data

/-- The click listener of initializeSmoothScroll, for an anchor whose href
attribute is the given string: for a non-bare fragment it prevents default,
resolves the id; if the target exists it reads the ".menu" element's
offsetHeight (throwing on a null querySelector result), scrolls to
offsetTop minus header height minus 20, sets tabindex and focuses. -/
def smoothScrollClick (d : ScrollDoc) (href : String) : ClickEffect :=
  if href != bareHash && jsStartsWith href bareHash then
    let targetId := href.drop 1
    match getElementById d targetId with
    | some el =>
      match d.menuHeight with
      | none =>
        { defaultPrevented := true, scrolledTo := none, focusedId := none
          tabindexSetOn := none, threw := true }
      | some headerHeight =>
        { defaultPrevented := true
          scrolledTo := some (el.offsetTop - headerHeight - 20)
          focusedId := some targetId
          tabindexSetOn := some targetId
          threw := false }
    | none =>
      { defaultPrevented := true, scrolledTo := none, focusedId := none
        tabindexSetOn := none, threw := false }
  else noClickEffect

/-- The inline style properties touched by the focus-management handlers. -/
structure ElemStyle where
  outline : String
  outlineOffset : String
deriving DecidableEq, Repr

/-- The focus listener of initializeFocusManagement on buttons and menu
links: sets the outline and the outline offset. -/
def focusHandler (s : ElemStyle) : ElemStyle :=
  { s with outline := "2px solid #e50914", outlineOffset := "2px" }

/-- The blur listener of initializeFocusManagement: clears the outline
property only. -/
def blurHandler (s : ElemStyle) : ElemStyle :=
  { s with outline := "" }

/-- The response of the HEAD fetch, reduced to the one field read. -/
structure FetchResponse where
  ok : Bool
deriving DecidableEq, Repr

/-- The outcome of `await fetch(url, HEAD)`: a response, or a thrown
exception carrying a message. -/
inductive FetchOutcome
  | response (r : FetchResponse)
  | thrown (msg : String)
deriving DecidableEq, Repr

/-- checkImageExists, with the network behaviour for the probed URL passed
in as the fetch outcome: returns response.ok, and false when the fetch
threw; it is total, hence never rejects. -/
def checkImageExists (fetched : FetchOutcome) : Bool :=
  match fetched with
  | FetchOutcome.response r => r.ok
  | FetchOutcome.thrown _ => false

/-- A necessary condition for a string to be well-formed XML: every
occurrence of the character "<" must open markup, i.e. be followed by a
name-start letter, "/", "!" or "?". A "<" in character data violates
XML well-formedness. -/
def xmlLtOk : List Char → Bool
  | [] => true
  | c :: rest =>
    if c == '<' then
      match rest with
      | [] => false
      | d :: _ => (d.isAlpha || d == '/' || d == '!' || d == '?') && xmlLtOk rest
    else xmlLtOk rest

theorem classListContains_append (c d : String) (l : List String) :
    classListContains c (l ++ [d]) = (classListContains c l || (d == c)) := by
  induction l with
  | nil => by_cases h : d = c <;> simp [classListContains, h]
  | cons a t ih =>
      by_cases h : a = c
      · simp [classListContains, h]
      · simp [classListContains, h, ih]

theorem classListContains_add_self (c : String) (l : List String) :
    classListContains c (classListAdd c l) = true := by
  unfold classListAdd
  cases h : classListContains c l with
  | true => simp [h]
  | false => simp [h, classListContains_append]

theorem classListContains_add_of_ne (d c : String) (l : List String) (h : d ≠ c) :
    classListContains d (classListAdd c l) = classListContains d l := by
  unfold classListAdd
  cases hc : classListContains c l with
  | true => rfl
  | false => simp [classListContains_append, Ne.symm h]

theorem classListContains_remove_self (c : String) (l : List String) :
    classListContains c (classListRemove c l) = false := by
  induction l with
  | nil => rfl
  | cons a t ih =>
      by_cases h : a = c
      · simpa [classListRemove, List.filter_cons, h] using ih
      · simpa [classListRemove, List.filter_cons, classListContains, h] using ih

theorem classListContains_remove_of_ne (d c : String) (l : List String) (h : d ≠ c) :
    classListContains d (classListRemove c l) = classListContains d l := by
  induction l with
  | nil => rfl
  | cons a t ih =>
      by_cases hd : a = d
      · subst hd
        simp [classListRemove, List.filter_cons, bne_iff_ne, h, classListContains]
      · by_cases ha : a = c
        · subst ha
          have h1 : classListRemove a (a :: t) = classListRemove a t := by
            simp [classListRemove, List.filter_cons]
          have h2 : classListContains d (a :: t) = classListContains d t := by
            simp [classListContains, hd]
          rw [h1, h2, ih]
        · have h1 : classListRemove c (a :: t) = a :: classListRemove c t := by
            simp [classListRemove, List.filter_cons, bne_iff_ne, ha]
          have h2 : ∀ l2, classListContains d (a :: l2) = classListContains d l2 := by
            intro l2
            simp [classListContains, hd]
          rw [h1, h2, h2, ih]

/-- Claim C2: after the error handler installed by initializeImageHandling
runs on an image, the image has the img-missing class, does not have the
img-loading class, its alt text is prefixed with the fixed marker
"Imagem não disponível: ", and its src is the inline data-URI SVG
placeholder. -/
theorem imgErrorHandler_output_spec (img : Img) :
    hasClass imgMissingClass (imgErrorHandler img) = true ∧
    hasClass imgLoadingClass (imgErrorHandler img) = false ∧
    (imgErrorHandler img).alt = notAvailableMarker ++ img.alt ∧
    (imgErrorHandler img).src =
      placeholderSrc img.width img.height (notAvailableMarker ++ img.alt) := by
  refine ⟨?_, ?_, rfl, rfl⟩
  · simp [hasClass, imgErrorHandler, classListContains_add_self]
  · have hne : imgLoadingClass ≠ imgMissingClass := by decide
    simp [hasClass, imgErrorHandler, classListContains_add_of_ne _ _ _ hne,
      classListContains_remove_self]

/-- Claim C4: an image already carrying the img-missing class is left
completely unchanged by the broken-image scan: no synthetic error event is
dispatched and no attribute is altered, so marking as missing is
idempotent under repeated scans. -/
theorem brokenScan_skips_missing (img : Img)
    (h : hasClass imgMissingClass img = true) :
    checkForBrokenImagesStep img = img := by
  rw [hasClass] at h
  simp [checkForBrokenImagesStep, h]

/-- A concrete image already marked missing, used to witness the scan
theorems on the missing state. -/
def alreadyMissingImg : Img :=
  { complete := true, naturalWidth := 0, naturalHeight := 0, width := 10, height := 10
    alt := "Imagem não disponível: poster", src := "data:old", classes := [imgMissingClass]
    lazyLoading := true, onLoadAttached := true, onErrorAttached := true }

/-- Witness for C4 at a concrete already-missing image. -/
theorem brokenScan_skips_missing_witness :
    checkForBrokenImagesStep alreadyMissingImg = alreadyMissingImg :=
  brokenScan_skips_missing alreadyMissingImg (by decide)

/-- Claim C7: checkImageExists resolves to true exactly when the HEAD
request completes with an ok response; it resolves to false for every
non-success status and for every thrown exception, and being a total
function into Bool, it never rejects. -/
theorem checkImageExists_true_iff_ok (fetched : FetchOutcome) :
    checkImageExists fetched = true ↔ fetched = FetchOutcome.response { ok := true } := by
  cases fetched with
  | response r =>
      cases r with
      | mk ok => cases ok <;> simp [checkImageExists]
  | thrown m => simp [checkImageExists]

/-- Claim C9 counterexample: an element whose inline outline and
outlineOffset are both empty before focusing does not get its inline style
restored by the blur handler: outlineOffset stays "2px". -/
theorem blur_not_inverse_of_focus :
    blurHandler (focusHandler { outline := "", outlineOffset := "" }) ≠
      ({ outline := "", outlineOffset := "" } : ElemStyle) := by
  decide

/-- Claim C9 (amended): after a focus event followed by a blur event on a
button or menu link, the inline outline property is cleared to the empty
string, but the inline outlineOffset remains "2px"; the blur handler does
not restore outlineOffset to its pre-focus value. -/
theorem focus_then_blur_spec (s : ElemStyle) :
    blurHandler (focusHandler s) = { outline := "", outlineOffset := "2px" } := rfl

theorem missing_preserved_by_op (op : ImgOp) (img : Img)
    (h : hasClass imgMissingClass img = true) :
    hasClass imgMissingClass (applyImgOp op img) = true := by
  have hne : imgMissingClass ≠ imgLoadingClass := by decide
  cases op with
  | loadEvent =>
      rw [applyImgOp, dispatchLoadEvent]
      split
      · rw [hasClass] at h ⊢
        simpa [imgLoadHandler, classListContains_remove_of_ne _ _ _ hne] using h
      · exact h
  | errorEvent =>
      rw [applyImgOp, dispatchErrorEvent]
      split
      · simp [hasClass, imgErrorHandler, classListContains_add_self]
      · exact h
  | initHandling =>
      rw [applyImgOp, initImage]
      split
      · rw [hasClass] at h ⊢
        split
        · simpa [classListContains_add_of_ne _ _ _ hne] using h
        · exact h
      · exact h
  | brokenScan =>
      rw [applyImgOp, checkForBrokenImagesStep]
      rw [hasClass] at h
      simp [h, hasClass]
  | delayedScan =>
      rw [applyImgOp, delayedBrokenCheck]
      split
      · rw [dispatchErrorEvent]
        split
        · simp [hasClass, imgErrorHandler, classListContains_add_self]
        · exact h
      · exact h

/-- Claim C3: the img-missing state is one-way: no sequence of script
operations (load handler, error handler, the per-image initialization of
initializeImageHandling, the broken-image scan, or the delayed re-check,
run any number of times in any order) ever removes the img-missing class
once it is set. -/
theorem imgMissing_is_one_way (ops : List ImgOp) (img : Img)
    (h : hasClass imgMissingClass img = true) :
    hasClass imgMissingClass (runImgOps ops img) = true := by
  induction ops generalizing img with
  | nil => simpa [runImgOps] using h
  | cons op rest ih =>
      rw [runImgOps, List.foldl_cons]
      exact ih (applyImgOp op img) (missing_preserved_by_op op img h)

/-- Witness for C3: a concrete already-missing image keeps the class under
a concrete sequence of every operation. -/
theorem imgMissing_is_one_way_witness :
    hasClass imgMissingClass
      (runImgOps
        [ImgOp.initHandling, ImgOp.loadEvent, ImgOp.brokenScan,
          ImgOp.delayedScan, ImgOp.errorEvent]
        alreadyMissingImg) = true :=
  imgMissing_is_one_way
    [ImgOp.initHandling, ImgOp.loadEvent, ImgOp.brokenScan,
      ImgOp.delayedScan, ImgOp.errorEvent]
    alreadyMissingImg (by decide)

/-- A concrete image without the lazy-loading attribute that is complete
with zero natural dimensions and not marked missing: a real broken image
outside the selector of initializeImageHandling. -/
def brokenEagerImg : Img :=
  { complete := true, naturalWidth := 0, naturalHeight := 0, width := 0, height := 0
    alt := "poster", src := "poster.jpg", classes := [], lazyLoading := false
    onLoadAttached := false, onErrorAttached := false }

/-- Claim C1 counterexample: a complete, zero-dimension, unmarked image
that does not match the lazy-loading selector gets no error listener from
initializeImageHandling, so the synthetic error event dispatched by
checkForBrokenImages has no handler: afterwards the image is entirely
unchanged and in particular carries no img-missing class, contradicting
the claim for non-deferred images. -/
theorem brokenScan_noop_on_eager_image :
    brokenEagerImg.complete = true ∧
    brokenEagerImg.naturalWidth = 0 ∧
    hasClass imgMissingClass brokenEagerImg = false ∧
    checkForBrokenImages (initializeImageHandling [brokenEagerImg]) = [brokenEagerImg] ∧
    hasClass imgMissingClass (checkForBrokenImagesStep (initImage brokenEagerImg)) = false := by
  decide

/-- Claim C1 (amended): for every image matching the lazy-loading selector
(so that initializeImageHandling installed the error handler on it) that
is complete with a zero natural width or height and not already marked
img-missing, the broken-image scan forces it through the failure path:
afterwards it carries the img-missing class, not the img-loading class,
its alt text carries the not-available prefix, and its src is the
generated placeholder; images outside the lazy-loading selector receive
the synthetic event but have no handler for it and stay unchanged. -/
theorem brokenScan_forces_failure_on_lazy (img : Img)
    (hlazy : img.lazyLoading = true) (hc : img.complete = true)
    (hdim : img.naturalWidth = 0 ∨ img.naturalHeight = 0)
    (hmiss : hasClass imgMissingClass img = false) :
    hasClass imgMissingClass (checkForBrokenImagesStep (initImage img)) = true ∧
    hasClass imgLoadingClass (checkForBrokenImagesStep (initImage img)) = false ∧
    (checkForBrokenImagesStep (initImage img)).alt = notAvailableMarker ++ img.alt ∧
    (checkForBrokenImagesStep (initImage img)).src =
      placeholderSrc img.width img.height (notAvailableMarker ++ img.alt) := by
  have h1 : initImage img = { img with onLoadAttached := true, onErrorAttached := true } := by
    rw [initImage]
    simp [hlazy, hc]
  have hdim' : (img.naturalWidth == 0 || img.naturalHeight == 0) = true := by
    rcases hdim with h | h <;> simp [h]
  rw [hasClass] at hmiss
  have h2 : checkForBrokenImagesStep (initImage img) =
      imgErrorHandler { img with onLoadAttached := true, onErrorAttached := true } := by
    rw [h1, checkForBrokenImagesStep]
    simp [hmiss, hc, hdim', dispatchErrorEvent]
  rw [h2]
  refine ⟨?_, ?_, rfl, rfl⟩
  · simp [hasClass, imgErrorHandler, classListContains_add_self]
  · have hne : imgLoadingClass ≠ imgMissingClass := by decide
    simp [hasClass, imgErrorHandler, classListContains_add_of_ne _ _ _ hne,
      classListContains_remove_self]

/-- A concrete lazy-loading image that is complete with zero natural
dimensions and not marked missing. -/
def brokenLazyImg : Img :=
  { complete := true, naturalWidth := 0, naturalHeight := 0, width := 200, height := 150
    alt := "poster", src := "poster.jpg", classes := [], lazyLoading := true
    onLoadAttached := false, onErrorAttached := false }

/-- Witness for the amended C1 at a concrete broken lazy image. -/
theorem brokenScan_forces_failure_on_lazy_witness :
    hasClass imgMissingClass (checkForBrokenImagesStep (initImage brokenLazyImg)) = true ∧
    hasClass imgLoadingClass (checkForBrokenImagesStep (initImage brokenLazyImg)) = false ∧
    (checkForBrokenImagesStep (initImage brokenLazyImg)).alt =
      notAvailableMarker ++ "poster" ∧
    (checkForBrokenImagesStep (initImage brokenLazyImg)).src =
      placeholderSrc 200 150 (notAvailableMarker ++ "poster") :=
  brokenScan_forces_failure_on_lazy brokenLazyImg rfl rfl (Or.inl rfl) (by decide)

/-- Claim C5: a click on a fragment link other than the bare "#" whose
target id exists, on a page with a ".menu" element, prevents default
navigation, scrolls the window to the target's offsetTop minus the menu's
offsetHeight minus 20, and moves keyboard focus to the target (setting
tabindex on it); the handler does not throw. -/
theorem smoothScrollClick_scrolls_and_focuses (d : ScrollDoc) (href : String)
    (el : TargetEl) (menuH : Int)
    (h1 : href ≠ bareHash) (h2 : jsStartsWith href bareHash = true)
    (h3 : getElementById d (href.drop 1) = some el)
    (h4 : d.menuHeight = some menuH) :
    smoothScrollClick d href =
      { defaultPrevented := true
        scrolledTo := some (el.offsetTop - menuH - 20)
        focusedId := some (href.drop 1)
        tabindexSetOn := some (href.drop 1)
        threw := false } := by
  have h1' : (href != bareHash) = true := by simpa using h1
  rw [smoothScrollClick]
  simp [h1', h2, h3, h4]

/-- A concrete page with a section element at offsetTop 500 and a menu of
offsetHeight 80. -/
def demoDocFull : ScrollDoc :=
  { elems := [("section1", { offsetTop := 500 })], menuHeight := some 80 }

/-- Witness for C5: clicking "#section1" on the concrete page scrolls to
500 - 80 - 20 = 400 and focuses the target. -/
theorem smoothScrollClick_scrolls_and_focuses_witness :
    smoothScrollClick demoDocFull "#section1" =
      { defaultPrevented := true
        scrolledTo := some 400
        focusedId := some "section1"
        tabindexSetOn := some "section1"
        threw := false } := by
  have h := smoothScrollClick_scrolls_and_focuses demoDocFull "#section1"
    { offsetTop := 500 } 80 (by decide) (by decide) (by decide) rfl
  rw [h]
  decide

/-- Claim C6: a click on a fragment link other than the bare "#" whose
target id does not exist prevents default navigation and then does
nothing: no scroll, no focus change, no attribute mutation, and no
exception. -/
theorem smoothScrollClick_dangling_target_noop (d : ScrollDoc) (href : String)
    (h1 : href ≠ bareHash) (h2 : jsStartsWith href bareHash = true)
    (h3 : getElementById d (href.drop 1) = none) :
    smoothScrollClick d href =
      { defaultPrevented := true, scrolledTo := none, focusedId := none
        tabindexSetOn := none, threw := false } := by
  have h1' : (href != bareHash) = true := by simpa using h1
  rw [smoothScrollClick]
  simp [h1', h2, h3]

/-- Witness for C6: clicking "#nothere" on the concrete page prevents
default and has no further effect. -/
theorem smoothScrollClick_dangling_target_noop_witness :
    smoothScrollClick demoDocFull "#nothere" =
      { defaultPrevented := true, scrolledTo := none, focusedId := none
        tabindexSetOn := none, threw := false } :=
  smoothScrollClick_dangling_target_noop demoDocFull "#nothere"
    (by decide) (by decide) (by decide)

/-- Claim C10: with no ".menu" element in the document, a click on a
fragment link whose target exists prevents default and then throws on the
null dereference of offsetHeight, so neither scroll nor focus transfer
occurs. -/
theorem smoothScrollClick_throws_without_menu (d : ScrollDoc) (href : String)
    (el : TargetEl)
    (h1 : href ≠ bareHash) (h2 : jsStartsWith href bareHash = true)
    (h3 : getElementById d (href.drop 1) = some el)
    (h4 : d.menuHeight = none) :
    smoothScrollClick d href =
      { defaultPrevented := true, scrolledTo := none, focusedId := none
        tabindexSetOn := none, threw := true } := by
  have h1' : (href != bareHash) = true := by simpa using h1
  rw [smoothScrollClick]
  simp [h1', h2, h3, h4]

/-- The concrete page of C5's witness with its menu element removed. -/
def demoDocNoMenu : ScrollDoc :=
  { elems := [("section1", { offsetTop := 500 })], menuHeight := none }

/-- Witness for C10: on the menu-less page, clicking "#section1" prevents
default and throws with no scroll and no focus. -/
theorem smoothScrollClick_throws_without_menu_witness :
    smoothScrollClick demoDocNoMenu "#section1" =
      { defaultPrevented := true, scrolledTo := none, focusedId := none
        tabindexSetOn := none, threw := true } :=
  smoothScrollClick_throws_without_menu demoDocNoMenu "#section1"
    { offsetTop := 500 } (by decide) (by decide) (by decide) rfl

/-- A concrete image whose alt text contains the XML-special character
"<", with the error handler attached. -/
def ltAltImg : Img :=
  { complete := true, naturalWidth := 0, naturalHeight := 0, width := 0, height := 0
    alt := "<", src := "poster.jpg", classes := [], lazyLoading := true
    onLoadAttached := true, onErrorAttached := true }

set_option maxRecDepth 4000 in
/-- Claim C8, failing input: for an image whose alt text is "<", the SVG
markup the error handler interpolates the (rewritten) alt text into
contains a "<" in character data, so it violates XML well-formedness and
is not valid SVG; the handler writes exactly the data-URI encoding of this
ill-formed markup to src. -/
theorem placeholder_ill_formed_for_special_alt :
    xmlLtOk (svgMarkup 400 300 (notAvailableMarker ++ "<")).data = false ∧
    (imgErrorHandler ltAltImg).src =
      dataURIHead ++ encodeURIComponent (svgMarkup 400 300 (notAvailableMarker ++ "<")) :=
  ⟨by decide, rfl⟩
